import Mathlib

/-!
The pr-size-bot program: a shallow embedding of `main.go`.

The program is a GitHub-App webhook listener.  Its own code is one file:
`envVar`, `main`, `Handle`, `GetV3Client`, `processReleaseEvent`,
`processPrEvent`.  Everything else is third-party (net/http, strconv,
strings, godotenv, ghinstallation, go-github, go-playground/webhooks).

Conventions of the embedding:

* A Go `string` is a Lean `String`.
* Library calls whose result the program only inspects (webhook client
  construction, webhook parsing, the two GitHub API calls, transport
  creation) are function parameters; their results are `Except`, and
  `Parsed` for the webhook parser.
* `log.Fatal*` ends the process: a function that may reach it returns
  `Except LogCall _`, the error being the fatal log call.
* A panic of the webhook parser is an outcome of its own (`Parsed.panic`);
  `Handle` has no `recover`, so the panic leaves `Handle` (`Abort.panic`).
* Effects are recorded, in program order, as data: log calls, the status
  handed to `WriteHeader`, the goroutines started by `go`, the API calls
  issued.
* Machine integers are `Nat`/`Int` with explicit wrap-around.
-/

namespace PrSizeBot

/-! ## Process environment and logging -/

/-- Process environment (what `os.Getenv` reads) after a successful
`godotenv.Load(".env")`. -/
abbrev Environ := List (String × String)

/-- Go `os.Getenv`: the value of the variable, the empty string when unset. -/
def Getenv (env : Environ) (key : String) : String :=
  match env.lookup key with
  | some v => v
  | none => ""

/-- Sentinel and other errors of the webhooks library's `Parse`.
`ErrEventNotFound` is the sentinel `Handle` compares against with `==`;
`other` stands for non-sentinel errors (a JSON decoding error). -/
inductive HookError
  | ErrEventsNotSpecifiedToParse
  | ErrInvalidHTTPMethod
  | ErrMissingGithubEventHeader
  | ErrMissingHubSignatureHeader
  | ErrEventNotFound
  | ErrParsingPayload
  | ErrHMACVerificationFailed
  | other (msg : String)
deriving DecidableEq, Repr

/-- An argument handed to a `log`/`fmt` formatting call. -/
inductive LogArg
  | str (s : String)
  | int (i : Int)
  | strs (l : List String)
  | err (msg : String)
  | hookErr (e : HookError)
deriving DecidableEq, Repr

/-- One call into the `log` / `fmt` packages, with its format and arguments
as written in the source (the formatting itself is not interpreted). -/
inductive LogCall
  | Println (msg : String)
  | Printf (format : String) (args : List LogArg)
  | Fatal (msg : String)
  | Fatalf (format : String) (args : List LogArg)
  | FmtPrintf (format : String) (args : List LogArg)
deriving DecidableEq, Repr

/-- Source `envVar` (main.go 23-31).  `dotenv = none` is the case where
`godotenv.Load` fails: the process ends in `log.Fatalf`. -/
def envVar (dotenv : Option Environ) (key : String) : Except LogCall String :=
  match dotenv with
  | none => .error (.Fatalf "Error loading .env file" [])
  | some env => .ok (Getenv env key)

/-! ## Webhook payloads and the GitHub API values -/

/-- Webhooks library `Event` (a string type) . -/
abbrev Event := String

/-- Library constant `ReleaseEvent`. -/
def ReleaseEvent : Event := "release"

/-- Library constant `PullRequestEvent`. -/
def PullRequestEvent : Event := "pull_request"

/-- The webhook client returned by `ghwebhooks.New`. -/
structure Webhook where
  secret : String
deriving DecidableEq, Repr

/-- The part of `*http.Request` the webhook parser reads.  `Header` is the
list of header lines as delivered, name and value, in order. -/
structure Request where
  Method : String
  Header : List (String × String)
  Body : String
deriving DecidableEq, Repr

/-- Header names compared as net/http does: it stores and looks up names in
canonical MIME form, so two names made of header token characters (the only
names the server hands to a handler) denote the same header exactly when
they agree up to the case of ASCII letters. -/
def sameHeaderName (a b : String) : Bool :=
  a.data.map Char.toLower == b.data.map Char.toLower

/-- Go `Header.Get`: first value stored under the key (names compared in
canonical form), empty string if none. -/
def Request.HeaderGet (r : Request) (key : String) : String :=
  match r.Header.find? (fun line => sameHeaderName line.1 key) with
  | some line => line.2
  | none => ""

/-- Go `len(s)` of a string: its length in bytes. -/
def len (s : String) : Nat := s.utf8ByteSize

/-- Branch end of a pull request (`Head` / `Base`). -/
structure PullRequestBranch where
  Ref : String
deriving DecidableEq, Repr

/-- Pull request object: the `PullRequest` field of the webhook payload, which
`processPrEvent` hands to the edit call, and the object the API returns. -/
structure PullRequest where
  Number : Int
  URL : String
  Title : String
  Body : String
  Head : PullRequestBranch
  Base : PullRequestBranch
deriving DecidableEq, Repr

/-- Go-github accessor `GetURL`. -/
def PullRequest.GetURL (pr : PullRequest) : String := pr.URL

/-- Release webhook payload (fields the library decodes; the program reads
none of them). -/
structure ReleasePayload where
  Action : String
  TagName : String
deriving DecidableEq, Repr

/-- Pull-request webhook payload. -/
structure PullRequestsPayload where
  Action : String
  Number : Int
  PullRequest : PullRequest
deriving DecidableEq, Repr

/-- The `interface{}` value `Parse` returns on success: one of the library's
payload structs.  `other` stands for every payload type that is neither of
the two the handler switches on. -/
inductive Payload
  | ReleasePayload (p : ReleasePayload)
  | PullRequestsPayload (p : PullRequestsPayload)
  | other (kind : String)
deriving DecidableEq, Repr

/-- Outcome of one call of `hook.Parse`: it panics (a Go runtime error), or
returns a non-nil error, or returns a payload with a nil error. -/
inductive Parsed
  | panic (msg : String)
  | error (err : HookError)
  | ok (payload : Payload)
deriving DecidableEq, Repr

/-- Go-github `NewPullRequest`; pointer fields are `Option`. -/
structure NewPullRequest where
  Title : Option String
  Head : Option String
  Base : Option String
  Body : Option String
  Issue : Option Int
  MaintainerCanModify : Option Bool
  Draft : Option Bool
deriving DecidableEq, Repr

/-- A call issued on the authenticated GitHub client. -/
inductive ApiCall
  | Create (owner repo : String) (pull : NewPullRequest)
  | Edit (owner repo : String) (pull : PullRequest)
deriving DecidableEq, Repr

/-! ## strings.Contains -/

/-- Whether `sub` occurs in the character sequence at some offset. -/
def containsChars (sub : List Char) : List Char → Bool
  | [] => sub.isPrefixOf []
  | c :: cs => sub.isPrefixOf (c :: cs) || containsChars sub cs

/-- Go `strings.Contains(s, substr)`. -/
def Contains (s substr : String) : Bool := containsChars substr.data s.data

/-! ## The webhook handler -/

/-- Go `http.StatusOK`. -/
def StatusOK : Nat := 200

/-- Go `http.StatusInternalServerError`. -/
def StatusInternalServerError : Nat := 500

/-- A goroutine started by a `go` statement of `Handle`. -/
inductive Goroutine
  | processReleaseEvent (p : ReleasePayload)
  | processPrEvent (p : PullRequestsPayload)
deriving DecidableEq, Repr

/-- What one run of `Handle` did: its log calls, the status it passed to
`WriteHeader` (`none` when it returned without calling it), and the
goroutines it started. -/
structure Handled where
  logs : List LogCall
  written : Option Nat
  spawned : List Goroutine
deriving DecidableEq, Repr

/-- Ways a run of `Handle` ends without returning: `log.Fatalf` ends the
process, or a panic raised inside a call propagates out of `Handle` (which
has no `recover`). -/
inductive Abort
  | fatal (l : LogCall)
  | panic (msg : String)
deriving DecidableEq, Repr

/-- Source `Handle` (main.go 66-98).  `hookNew` is `ghwebhooks.New` applied to
`Options.Secret(secret)`; `hookParse` is `hook.Parse`.  The result is
`.ok` when `Handle` returns, `.error` when it does not. -/
def Handle (dotenv : Option Environ)
    (hookNew : String → Except String Webhook)
    (hookParse : Webhook → Request → List Event → Parsed)
    (request : Request) : Except Abort Handled :=
  match envVar dotenv "WEBHOOK_SECRET" with
  | .error fatal => .error (.fatal fatal)
  | .ok webhookSecret =>
    match hookNew webhookSecret with
    | .error _ =>
      .ok { logs := [.Println "Error setting up gh webhooks client"],
            written := none, spawned := [] }
    | .ok hook =>
      match hookParse hook request [ReleaseEvent] with
      | .panic msg => .error (.panic msg)
      | .error err =>
        if err = HookError.ErrEventNotFound then
          .ok { logs := [.Printf "received unregistered GitHub event: %v\n" [.hookErr err]],
                written := some StatusOK, spawned := [] }
        else
          .ok { logs := [.Printf "received malformed GitHub event: %v\n" [.hookErr err]],
                written := some StatusInternalServerError, spawned := [] }
      | .ok (.ReleasePayload p) =>
        .ok { logs := [.Println "received release event"],
              written := some StatusOK, spawned := [.processReleaseEvent p] }
      | .ok (.PullRequestsPayload p) =>
        .ok { logs := [.Println "received PR event"],
              written := some StatusOK, spawned := [.processPrEvent p] }
      | .ok (.other _) =>
        .ok { logs := [.Println "missing github webhook handler"],
              written := some StatusOK, spawned := [] }

/-- Status line net/http sends for a handler run: the status given to
`WriteHeader`, and `200 OK` when the handler returned without calling it. -/
def Handled.status (h : Handled) : Nat :=
  match h.written with
  | some code => code
  | none => StatusOK

/-- Status line the client receives for a run of `Handle`, if any: none when
`Handle` did not return (after `log.Fatalf` the process is gone; after a
panic net/http recovers, logs it and closes the connection without a
response). -/
def responseStatus : Except Abort Handled → Option Nat
  | .ok h => some h.status
  | .error _ => none

/-! ## Event processors -/

/-- What one run of a processor did: API calls issued and log calls made. -/
structure Processed where
  calls : List ApiCall
  logs : List LogCall
deriving DecidableEq, Repr

/-- The pull-request descriptor literal of `processReleaseEvent`
(main.go 107-113). -/
def releasePullRequest : NewPullRequest :=
  { Title := some "Hello pull request!",
    Head := some "develop",
    Base := some "master",
    Body := some "This is an automatically created PR.",
    Issue := none,
    MaintainerCanModify := some true,
    Draft := none }

/-- The substring both processors test the API error message for. -/
def alreadyExists : String := "A pull request already exists"

/-- Source `processReleaseEvent` (main.go 104-121).  `create` is
`PullRequests.Create` on the installation client; its error is given by its
`Error()` text. -/
def processReleaseEvent (dotenv : Option Environ)
    (create : String → String → NewPullRequest → Except String PullRequest)
    (_p : ReleasePayload) : Except LogCall Processed :=
  match envVar dotenv "ORG_ID" with
  | .error fatal => .error fatal
  | .ok orgID =>
    match envVar dotenv "REPO_NAME" with
    | .error fatal => .error fatal
    | .ok repo =>
      let call := ApiCall.Create orgID repo releasePullRequest
      match create orgID repo releasePullRequest with
      | .error err =>
        if !Contains err alreadyExists then
          .ok { calls := [call],
                logs := [.Printf "error creating pull request: %v\n" [.err err]] }
        else
          .ok { calls := [call], logs := [] }
      | .ok pr =>
        .ok { calls := [call],
              logs := [.Printf "created pull request: %s" [.str pr.GetURL]] }

/-- Source `processPrEvent` (main.go 123-134).  `edit` is `PullRequests.Edit`
on the installation client. -/
def processPrEvent (dotenv : Option Environ)
    (edit : String → String → PullRequest → Except String PullRequest)
    (p : PullRequestsPayload) : Except LogCall Processed :=
  match envVar dotenv "ORG_ID" with
  | .error fatal => .error fatal
  | .ok orgID =>
    match envVar dotenv "REPO_NAME" with
    | .error fatal => .error fatal
    | .ok repo =>
      let call := ApiCall.Edit orgID repo p.PullRequest
      match edit orgID repo p.PullRequest with
      | .error err =>
        if !Contains err alreadyExists then
          .ok { calls := [call],
                logs := [.Printf "error creating pull request: %v\n" [.err err]] }
        else
          .ok { calls := [call], logs := [] }
      | .ok pr =>
        .ok { calls := [call],
              logs := [.Printf "created pull request: %s" [.str pr.GetURL]] }

/-! ## strconv.ParseInt at the arguments `main` passes (base 10, 64 bits)

Go standard library code (`strconv/atoi.go`), which `main` calls at line 38;
it is followed statement by statement, specialised to `base = 10` and
`bitSize = 64`.  A byte is a `Nat` below 256. -/

/-- The two `strconv` error kinds (`NumError.Err`). -/
inductive NumError
  | ErrSyntax
  | ErrRange
deriving DecidableEq, Repr

/-- The bytes of a Go string: its UTF-8 encoding, each byte as a number. -/
def bytes (s : String) : List Nat :=
  s.data.flatMap fun c => (String.utf8EncodeChar c).map UInt8.toNat

/-- Go strconv `lower`: the byte or-ed with `'x' - 'X'`. -/
def lower (c : Nat) : Nat := c ||| 0x20

/-- Largest `uint64`. -/
def maxUint64 : Nat := 2 ^ 64 - 1

/-- The digit loop of `strconv.ParseUint` for `base = 10`, `bitSize = 64`
(so `base0 = false`, `cutoff = maxUint64/10 + 1`, `maxVal = maxUint64`);
`n` is the accumulator, `uint64` arithmetic wraps modulo `2^64`. -/
def parseUintLoop : List Nat → Nat → Nat × Option NumError
  | [], n => (n, none)
  | c :: rest, n =>
    let d : Option Nat :=
      if 48 ≤ c ∧ c ≤ 57 then some (c - 48)
      else if 97 ≤ lower c ∧ lower c ≤ 122 then some (lower c - 97 + 10)
      else none
    match d with
    | none => (0, some .ErrSyntax)
    | some d =>
      if d ≥ 10 then (0, some .ErrSyntax)
      else if n ≥ maxUint64 / 10 + 1 then (maxUint64, some .ErrRange)
      else
        let n10 := (n * 10) % 2 ^ 64
        let n1 := (n10 + d) % 2 ^ 64
        if n1 < n10 ∨ n1 > maxUint64 then (maxUint64, some .ErrRange)
        else parseUintLoop rest n1

/-- Go `strconv.ParseUint(s, 10, 64)` on the bytes of `s`: value and error
(`none` is a nil error). -/
def ParseUint (s : List Nat) : Nat × Option NumError :=
  match s with
  | [] => (0, some .ErrSyntax)
  | _ => parseUintLoop s 0

/-- Go conversion `int64(x)` and `int64` negation: wrap into the signed
64-bit range. -/
def int64 (x : Int) : Int := (x + 2 ^ 63) % 2 ^ 64 - 2 ^ 63

/-- Go `strconv.ParseInt(s, 10, 64)`: value and error (`none` is nil). -/
def ParseInt (s : String) : Int × Option NumError :=
  match bytes s with
  | [] => (0, some .ErrSyntax)
  | c0 :: tl =>
    let signed : Bool × List Nat :=
      if c0 = 43 then (false, tl) else if c0 = 45 then (true, tl) else (false, c0 :: tl)
    let neg := signed.1
    match ParseUint signed.2 with
    | (_, some .ErrSyntax) => (0, some .ErrSyntax)
    | (un, _) =>
      let cutoff : Nat := 2 ^ 63
      if !neg && un ≥ cutoff then (int64 (cutoff - 1 : Nat), some .ErrRange)
      else if neg && un > cutoff then (int64 (-int64 cutoff), some .ErrRange)
      else
        let n := int64 un
        (if neg then int64 (-n) else n, none)

/-- Decimal value of a digit sequence, continuing from the accumulator `n`. -/
def decimalValue (ds : List Nat) (n : Nat) : Nat := ds.foldl (fun acc d => acc * 10 + d) n

/-! ## Startup -/

/-- The app-level transport `ghinstallation.NewAppsTransportKeyFromFile`
returns: it keeps the app id it was created with. -/
structure AppsTransport where
  appID : Int
  keyFile : String
deriving DecidableEq, Repr

/-- The installation object `FindOrganizationInstallation` returns. -/
structure Installation where
  ID : Int
  Events : List String
deriving DecidableEq, Repr

/-- Error value returned by `http.ListenAndServe`. -/
inductive ServeError
  | ErrServerClosed
  | other (msg : String)
deriving DecidableEq, Repr

/-- One observable action of `main`, in program order. -/
inductive StartupStep
  | log (l : LogCall)
  | NewAppsTransportKeyFromFile (appID : Int) (certPath : String)
  | FindOrganizationInstallation (org : String)
  | NewFromAppsTransport (installationID : Int)
  | HandleFunc (pattern : String)
  | ListenAndServe (addr : String)
deriving DecidableEq, Repr

/-- Source `main` (main.go 33-64) as the sequence of its actions.  A trace
that ends in a `Fatal`/`Fatalf` log call is an aborted start.
`newAppsTransport` is `ghinstallation.NewAppsTransportKeyFromFile`,
`findInstallation` is `Apps.FindOrganizationInstallation` on the app client,
`serveErr` is what `http.ListenAndServe` returns. -/
def main (dotenv : Option Environ)
    (newAppsTransport : Int → String → Except String AppsTransport)
    (findInstallation : AppsTransport → String → Except String Installation)
    (serveErr : Option ServeError) : List StartupStep :=
  match envVar dotenv "ORG_ID" with
  | .error fatal => [.log fatal]
  | .ok orgID =>
  match envVar dotenv "CERT_PATH" with
  | .error fatal => [.log fatal]
  | .ok certPath =>
  match envVar dotenv "APP_ID" with
  | .error fatal => [.log fatal]
  | .ok appString =>
    let parsed := ParseInt appString
    let appID := parsed.1
    let shown : List StartupStep :=
      if parsed.2 = none then
        [.log (.FmtPrintf "%d of type %T" [.int appID, .int appID])]
      else []
    shown ++ StartupStep.NewAppsTransportKeyFromFile appID certPath ::
      match newAppsTransport appID certPath with
      | .error _ => [.log (.Fatal "error creating GitHub app client")]
      | .ok atr =>
        StartupStep.FindOrganizationInstallation orgID ::
          match findInstallation atr orgID with
          | .error err =>
            [.log (.Fatalf "error finding organization installation: %v" [.err err])]
          | .ok installation =>
            [ .NewFromAppsTransport installation.ID,
              .log (.Printf
                "successfully initialized GitHub app client, installation-id:%s expected-events:%v\n"
                [.int installation.ID, .strs installation.Events]),
              .HandleFunc "/GitHub",
              .ListenAndServe "0.0.0.0:3210" ] ++
            match serveErr with
            | some (.other msg) => [.log (.Fatal msg)]
            | _ => []

/-! ## The webhooks library's `Parse` -/

/-- Third-party `Webhook.Parse` of go-playground/webhooks (package github),
the function `Handle` calls: the checks it makes, in its order.  Parameters:
`verify secret body signature` is the HMAC comparison of `signature[5:]` with
the MAC of the body; `decodeRelease` and `decodePullRequest` are the JSON
decoding of the two payload kinds `Handle` switches on; `decodeOther` is the
rest of the library's switch on the event (its other cases and its
fall-through).  Slicing `signature[5:]` panics when the header has fewer than
5 bytes. -/
def Parse (verify : String → String → String → Bool)
    (decodeRelease : String → Except String ReleasePayload)
    (decodePullRequest : String → Except String PullRequestsPayload)
    (decodeOther : Event → String → Parsed)
    (hook : Webhook) (r : Request) (events : List Event) : Parsed :=
  if events.length = 0 then .error .ErrEventsNotSpecifiedToParse
  else if r.Method ≠ "POST" then .error .ErrInvalidHTTPMethod
  else
    let event := r.HeaderGet "X-GitHub-Event"
    if event = "" then .error .ErrMissingGithubEventHeader
    else if !events.contains event then .error .ErrEventNotFound
    else if len r.Body = 0 then .error .ErrParsingPayload
    else
      let signature := r.HeaderGet "X-Hub-Signature"
      if len hook.secret > 0 ∧ len signature = 0 then
        .error .ErrMissingHubSignatureHeader
      else if len hook.secret > 0 ∧ len signature < 5 then
        .panic ("runtime error: slice bounds out of range [5:" ++
          toString (len signature) ++ "]")
      else if len hook.secret > 0 ∧ !verify hook.secret r.Body signature then
        .error .ErrHMACVerificationFailed
      else if event = ReleaseEvent then
        match decodeRelease r.Body with
        | .error msg => .error (.other msg)
        | .ok pl => .ok (.ReleasePayload pl)
      else if event = PullRequestEvent then
        match decodePullRequest r.Body with
        | .error msg => .error (.other msg)
        | .ok pl => .ok (.PullRequestsPayload pl)
      else decodeOther event r.Body

/-- Third-party `ghwebhooks.New(Options.Secret(secret))`: stores the secret. -/
def New (secret : String) : Except String Webhook := .ok { secret := secret }

/-! ## Serving one request -/

/-- Body a goroutine started by `Handle` runs, against the GitHub API
(`create` is `PullRequests.Create`, `edit` is `PullRequests.Edit`). -/
def Goroutine.run (dotenv : Option Environ)
    (create : String → String → NewPullRequest → Except String PullRequest)
    (edit : String → String → PullRequest → Except String PullRequest) :
    Goroutine → Except LogCall Processed
  | .processReleaseEvent p => PrSizeBot.processReleaseEvent dotenv create p
  | .processPrEvent p => PrSizeBot.processPrEvent dotenv edit p

/-- One request seen from outside: the status line of the response, and what
the goroutines the handler started went on to do. -/
structure Served where
  status : Nat
  background : List (Except LogCall Processed)

/-- One request served by net/http through `Handle`: the handler runs to its
return, the response carries its status, the goroutines run detached. -/
def serveRequest (dotenv : Option Environ)
    (hookNew : String → Except String Webhook)
    (hookParse : Webhook → Request → List Event → Parsed)
    (create : String → String → NewPullRequest → Except String PullRequest)
    (edit : String → String → PullRequest → Except String PullRequest)
    (request : Request) : Except Abort Served :=
  match Handle dotenv hookNew hookParse request with
  | .error fatal => .error fatal
  | .ok h => .ok { status := h.status, background := h.spawned.map (Goroutine.run dotenv create edit) }

/-! ## Sample inputs -/

/-- A loaded environment. -/
def sampleEnv : Environ :=
  [("ORG_ID", "acme"), ("CERT_PATH", "key.pem"), ("APP_ID", "42"),
   ("WEBHOOK_SECRET", "s3cret"), ("REPO_NAME", "widgets")]

/-- A signed release delivery. -/
def sampleReleaseRequest : Request :=
  { Method := "POST",
    Header := [("X-GitHub-Event", "release"), ("X-Hub-Signature", "sha1=00")],
    Body := "release-json" }

/-- A signed pull-request delivery. -/
def samplePullRequestRequest : Request :=
  { Method := "POST",
    Header := [("X-GitHub-Event", "pull_request"), ("X-Hub-Signature", "sha1=00")],
    Body := "pull-request-json" }

/-- A signed delivery of an event kind outside the allow-list. -/
def samplePushRequest : Request :=
  { Method := "POST",
    Header := [("X-GitHub-Event", "push"), ("X-Hub-Signature", "sha1=00")],
    Body := "push-json" }

/-- A release payload. -/
def sampleRelease : ReleasePayload := { Action := "published", TagName := "v1.0.0" }

/-- A pull-request payload whose branches are not develop/master. -/
def samplePullRequest : PullRequestsPayload :=
  { Action := "opened", Number := 7,
    PullRequest :=
      { Number := 7, URL := "https://api.github.test/pulls/7", Title := "Add feature",
        Body := "", Head := { Ref := "feature" }, Base := { Ref := "main" } } }

/-- A JSON decoder for release bodies that always succeeds. -/
def sampleDecodeRelease : String → Except String ReleasePayload :=
  fun _ => .ok sampleRelease

/-- A JSON decoder for pull-request bodies that always succeeds. -/
def sampleDecodePullRequest : String → Except String PullRequestsPayload :=
  fun _ => .ok samplePullRequest

/-- A release delivery whose signature header is the four bytes `sha1`. -/
def sampleShortSignatureRequest : Request :=
  { Method := "POST",
    Header := [("X-GitHub-Event", "release"), ("X-Hub-Signature", "sha1")],
    Body := "release-json" }

/-- The rest of the event switch, for events the samples do not deliver. -/
def sampleDecodeOther : Event → String → Parsed :=
  fun event _ => .ok (.other event)

/-- A signature check that accepts. -/
def acceptSignature : String → String → String → Bool := fun _ _ _ => true

/-- A signature check that rejects. -/
def rejectSignature : String → String → String → Bool := fun _ _ _ => false

/-- An API stub whose create call fails because the pull request exists. -/
def createAlreadyExists : String → String → NewPullRequest → Except String PullRequest :=
  fun _ _ _ => .error "422 Validation Failed: A pull request already exists for acme:develop."

/-- An API stub whose create call fails for another reason. -/
def createUnauthorized : String → String → NewPullRequest → Except String PullRequest :=
  fun _ _ _ => .error "401 Bad credentials"

/-- An API stub whose edit call succeeds and returns the pull request. -/
def editEcho : String → String → PullRequest → Except String PullRequest :=
  fun _ _ pull => .ok pull

/-- A transport constructor that succeeds. -/
def sampleNewAppsTransport : Int → String → Except String AppsTransport :=
  fun appID certPath => .ok { appID := appID, keyFile := certPath }

/-- An installation lookup that succeeds. -/
def sampleFindInstallation : AppsTransport → String → Except String Installation :=
  fun _ _ => .ok { ID := 1001, Events := ["release", "pull_request"] }

end PrSizeBot

namespace PrSizeBot

/-! ## Webhook handler: status and dispatch -/

/-- Without a loadable `.env` file `Handle` ends the process in `envVar`
before anything is written. -/
theorem Handle_env_missing
    (hookNew : String → Except String Webhook)
    (hookParse : Webhook → Request → List Event → Parsed)
    (request : Request) :
    Handle none hookNew hookParse request =
      .error (.fatal (.Fatalf "Error loading .env file" [])) :=
  rfl

/-- Without a loadable `.env` file `processReleaseEvent` ends the process in
`envVar` before any API call. -/
theorem processReleaseEvent_env_missing
    (create : String → String → NewPullRequest → Except String PullRequest)
    (p : ReleasePayload) :
    processReleaseEvent none create p = .error (.Fatalf "Error loading .env file" []) :=
  rfl

/-- C1. When parsing fails with the sentinel `ErrEventNotFound`, `Handle`
writes status 200 and starts no goroutine: neither processor is dispatched. -/
theorem Handle_event_not_found (env : Environ)
    (hookNew : String → Except String Webhook)
    (hookParse : Webhook → Request → List Event → Parsed)
    (request : Request) (hook : Webhook)
    (hnew : hookNew (Getenv env "WEBHOOK_SECRET") = .ok hook)
    (hparse : hookParse hook request [ReleaseEvent] = .error .ErrEventNotFound) :
    Handle (some env) hookNew hookParse request =
      .ok { logs := [.Printf "received unregistered GitHub event: %v\n"
                      [.hookErr .ErrEventNotFound]],
            written := some 200,
            spawned := [] } := by
  simp [Handle, envVar, hnew, hparse, StatusOK]

/-- Witness for C1: a signed `push` delivery, parsed by the library model. -/
theorem Handle_event_not_found_witness :
    New (Getenv sampleEnv "WEBHOOK_SECRET") = .ok { secret := "s3cret" } ∧
    Parse acceptSignature sampleDecodeRelease sampleDecodePullRequest sampleDecodeOther
      { secret := "s3cret" } samplePushRequest [ReleaseEvent] = .error .ErrEventNotFound ∧
    Handle (some sampleEnv) New
      (Parse acceptSignature sampleDecodeRelease sampleDecodePullRequest sampleDecodeOther) samplePushRequest =
      .ok { logs := [.Printf "received unregistered GitHub event: %v\n"
                      [.hookErr .ErrEventNotFound]],
            written := some 200,
            spawned := [] } :=
  ⟨rfl, rfl,
   Handle_event_not_found sampleEnv New
     (Parse acceptSignature sampleDecodeRelease sampleDecodePullRequest sampleDecodeOther)
     samplePushRequest { secret := "s3cret" } rfl rfl⟩

/-- C2. When parsing fails with any error other than `ErrEventNotFound` (a
failed signature check among them), `Handle` writes status 500 and starts no
goroutine. -/
theorem Handle_parse_failure (env : Environ)
    (hookNew : String → Except String Webhook)
    (hookParse : Webhook → Request → List Event → Parsed)
    (request : Request) (hook : Webhook) (err : HookError)
    (hnew : hookNew (Getenv env "WEBHOOK_SECRET") = .ok hook)
    (hparse : hookParse hook request [ReleaseEvent] = .error err)
    (hne : err ≠ .ErrEventNotFound) :
    Handle (some env) hookNew hookParse request =
      .ok { logs := [.Printf "received malformed GitHub event: %v\n" [.hookErr err]],
            written := some 500,
            spawned := [] } := by
  simp [Handle, envVar, hnew, hparse, hne, StatusInternalServerError]

/-- Witness for C2: a release delivery whose signature check fails. -/
theorem Handle_parse_failure_witness :
    New (Getenv sampleEnv "WEBHOOK_SECRET") = .ok { secret := "s3cret" } ∧
    Parse rejectSignature sampleDecodeRelease sampleDecodePullRequest sampleDecodeOther
      { secret := "s3cret" } sampleReleaseRequest [ReleaseEvent] =
      .error .ErrHMACVerificationFailed ∧
    HookError.ErrHMACVerificationFailed ≠ HookError.ErrEventNotFound ∧
    Handle (some sampleEnv) New
      (Parse rejectSignature sampleDecodeRelease sampleDecodePullRequest sampleDecodeOther) sampleReleaseRequest =
      .ok { logs := [.Printf "received malformed GitHub event: %v\n"
                      [.hookErr .ErrHMACVerificationFailed]],
            written := some 500,
            spawned := [] } :=
  ⟨rfl, rfl, by decide,
   Handle_parse_failure sampleEnv New
     (Parse rejectSignature sampleDecodeRelease sampleDecodePullRequest sampleDecodeOther)
     sampleReleaseRequest { secret := "s3cret" } .ErrHMACVerificationFailed
     rfl rfl (by decide)⟩

/-- C3 (the code departs from it). `Handle` passes `Parse` the allow-list
`[ReleaseEvent]` only.  A POST delivery whose `X-GitHub-Event` is
`pull_request` is therefore answered as an unregistered event, whatever its
signature and body: status 200, no goroutine, `processPrEvent` not started. -/
theorem Handle_pull_request_event_unregistered
    (verify : String → String → String → Bool)
    (decodeRelease : String → Except String ReleasePayload)
    (decodePullRequest : String → Except String PullRequestsPayload)
    (decodeOther : Event → String → Parsed)
    (env : Environ) (request : Request)
    (hmethod : request.Method = "POST")
    (hevent : request.HeaderGet "X-GitHub-Event" = PullRequestEvent) :
    Handle (some env) New (Parse verify decodeRelease decodePullRequest decodeOther) request =
      .ok { logs := [.Printf "received unregistered GitHub event: %v\n"
                      [.hookErr .ErrEventNotFound]],
            written := some 200,
            spawned := [] } := by
  have hparse : Parse verify decodeRelease decodePullRequest decodeOther
      { secret := Getenv env "WEBHOOK_SECRET" } request [ReleaseEvent] =
      .error .ErrEventNotFound := by
    simp [Parse, hmethod, hevent, PullRequestEvent, ReleaseEvent]
  simp [Handle, envVar, New, hparse, StatusOK]

/-- Witness for C3: a signed pull-request delivery that decodes to a
pull-request payload is answered as unregistered. -/
theorem Handle_pull_request_event_unregistered_witness :
    samplePullRequestRequest.Method = "POST" ∧
    samplePullRequestRequest.HeaderGet "X-GitHub-Event" = PullRequestEvent ∧
    Handle (some sampleEnv) New
      (Parse acceptSignature sampleDecodeRelease sampleDecodePullRequest sampleDecodeOther)
      samplePullRequestRequest =
      .ok { logs := [.Printf "received unregistered GitHub event: %v\n"
                      [.hookErr .ErrEventNotFound]],
            written := some 200,
            spawned := [] } :=
  ⟨rfl, rfl,
   Handle_pull_request_event_unregistered acceptSignature sampleDecodeRelease
     sampleDecodePullRequest sampleDecodeOther sampleEnv samplePullRequestRequest rfl rfl⟩

/-- With the allow-list `[ReleaseEvent]`, the library parser never returns a
pull-request payload. -/
theorem Parse_release_only_no_pull_request
    (verify : String → String → String → Bool)
    (decodeRelease : String → Except String ReleasePayload)
    (decodePullRequest : String → Except String PullRequestsPayload)
    (decodeOther : Event → String → Parsed)
    (hook : Webhook) (request : Request) (p : PullRequestsPayload) :
    Parse verify decodeRelease decodePullRequest decodeOther hook request [ReleaseEvent] ≠
      .ok (.PullRequestsPayload p) := by
  intro h
  unfold Parse at h
  by_cases hm : request.Method = "POST"
  · by_cases hev : request.HeaderGet "X-GitHub-Event" = ReleaseEvent
    · simp only [hev] at h
      split_ifs at h
      cases hd : decodeRelease request.Body <;> simp [hd] at h
    · by_cases hempty : request.HeaderGet "X-GitHub-Event" = ""
      · simp [hm, hempty] at h
      · simp [hm, hev, hempty] at h
  · simp [hm] at h

/-- With the library parser, no request makes `Handle` start
`processPrEvent`. -/
theorem Handle_never_starts_processPrEvent
    (verify : String → String → String → Bool)
    (decodeRelease : String → Except String ReleasePayload)
    (decodePullRequest : String → Except String PullRequestsPayload)
    (decodeOther : Event → String → Parsed)
    (dotenv : Option Environ) (request : Request) (h : Handled) (p : PullRequestsPayload)
    (hrun : Handle dotenv New (Parse verify decodeRelease decodePullRequest decodeOther)
      request = .ok h) :
    Goroutine.processPrEvent p ∉ h.spawned := by
  cases dotenv with
  | none => simp [Handle, envVar] at hrun
  | some env =>
    simp only [Handle, envVar, New] at hrun
    cases hp : Parse verify decodeRelease decodePullRequest decodeOther
        { secret := Getenv env "WEBHOOK_SECRET" } request [ReleaseEvent] with
    | panic msg =>
      rw [hp] at hrun
      simp at hrun
    | error e =>
      rw [hp] at hrun
      by_cases he : e = HookError.ErrEventNotFound
      · simp [he] at hrun
        subst hrun
        simp
      · simp [he] at hrun
        subst hrun
        simp
    | ok payload =>
      rw [hp] at hrun
      cases payload with
      | ReleasePayload q =>
        simp at hrun
        subst hrun
        simp
      | PullRequestsPayload q =>
        exact absurd hp (Parse_release_only_no_pull_request _ _ _ _ _ _ _)
      | other k =>
        simp at hrun
        subst hrun
        simp

/-- C4. When parsing succeeds with a release payload `Handle` starts exactly
`processReleaseEvent` on it, with a pull-request payload exactly
`processPrEvent` on it; in both cases it writes 200, and the status of the
response is 200 for every behaviour of the API calls the goroutine makes. -/
theorem Handle_recognized_payload (env : Environ)
    (hookNew : String → Except String Webhook)
    (hookParse : Webhook → Request → List Event → Parsed)
    (request : Request) (hook : Webhook)
    (hnew : hookNew (Getenv env "WEBHOOK_SECRET") = .ok hook) :
    (∀ p, hookParse hook request [ReleaseEvent] = .ok (.ReleasePayload p) →
      Handle (some env) hookNew hookParse request =
        .ok { logs := [.Println "received release event"],
              written := some 200,
              spawned := [.processReleaseEvent p] } ∧
      ∀ create edit,
        (serveRequest (some env) hookNew hookParse create edit request).map Served.status =
          .ok 200) ∧
    (∀ p, hookParse hook request [ReleaseEvent] = .ok (.PullRequestsPayload p) →
      Handle (some env) hookNew hookParse request =
        .ok { logs := [.Println "received PR event"],
              written := some 200,
              spawned := [.processPrEvent p] } ∧
      ∀ create edit,
        (serveRequest (some env) hookNew hookParse create edit request).map Served.status =
          .ok 200) := by
  constructor
  · intro p hparse
    have hH : Handle (some env) hookNew hookParse request =
        .ok { logs := [.Println "received release event"],
              written := some 200,
              spawned := [.processReleaseEvent p] } := by
      simp [Handle, envVar, hnew, hparse, StatusOK]
    refine ⟨hH, ?_⟩
    intro create edit
    simp [serveRequest, hH, Except.map, Handled.status]
  · intro p hparse
    have hH : Handle (some env) hookNew hookParse request =
        .ok { logs := [.Println "received PR event"],
              written := some 200,
              spawned := [.processPrEvent p] } := by
      simp [Handle, envVar, hnew, hparse, StatusOK]
    refine ⟨hH, ?_⟩
    intro create edit
    simp [serveRequest, hH, Except.map, Handled.status]

/-- Witness for C4: a signed release delivery starts `processReleaseEvent`
and is answered 200, whether the create call fails or succeeds. -/
theorem Handle_recognized_payload_witness :
    New (Getenv sampleEnv "WEBHOOK_SECRET") = .ok { secret := "s3cret" } ∧
    Parse acceptSignature sampleDecodeRelease sampleDecodePullRequest sampleDecodeOther
      { secret := "s3cret" } sampleReleaseRequest [ReleaseEvent] =
      .ok (.ReleasePayload sampleRelease) ∧
    Handle (some sampleEnv) New
      (Parse acceptSignature sampleDecodeRelease sampleDecodePullRequest sampleDecodeOther)
      sampleReleaseRequest =
      .ok { logs := [.Println "received release event"],
            written := some 200,
            spawned := [.processReleaseEvent sampleRelease] } ∧
    ∀ create edit,
      (serveRequest (some sampleEnv) New
        (Parse acceptSignature sampleDecodeRelease sampleDecodePullRequest sampleDecodeOther)
        create edit sampleReleaseRequest).map Served.status = .ok 200 :=
  ⟨rfl, rfl,
   (Handle_recognized_payload sampleEnv New
     (Parse acceptSignature sampleDecodeRelease sampleDecodePullRequest sampleDecodeOther)
     sampleReleaseRequest { secret := "s3cret" } rfl).1 sampleRelease rfl⟩

/-- When `hook.Parse` panics, `Handle` does not return and the client gets
no status line. -/
theorem Handle_parse_panic (env : Environ)
    (hookNew : String → Except String Webhook)
    (hookParse : Webhook → Request → List Event → Parsed)
    (request : Request) (hook : Webhook) (msg : String)
    (hnew : hookNew (Getenv env "WEBHOOK_SECRET") = .ok hook)
    (hparse : hookParse hook request [ReleaseEvent] = .panic msg) :
    Handle (some env) hookNew hookParse request = .error (.panic msg) := by
  simp [Handle, envVar, hnew, hparse]

/-- C5 as stated fails.  A release delivery whose `X-Hub-Signature` header is
the four bytes `sha1` makes `hook.Parse` panic on `signature[5:]`: `Handle`
does not return and no status is sent, neither 200 nor 500.  Likewise, when
the `.env` file cannot be loaded `Handle` ends the process in `envVar` and no
status is sent. -/
theorem Handle_status_counterexample :
    Handle (some sampleEnv) New
      (Parse acceptSignature sampleDecodeRelease sampleDecodePullRequest sampleDecodeOther)
      sampleShortSignatureRequest =
      .error (.panic "runtime error: slice bounds out of range [5:4]") ∧
    responseStatus (Handle (some sampleEnv) New
      (Parse acceptSignature sampleDecodeRelease sampleDecodePullRequest sampleDecodeOther)
      sampleShortSignatureRequest) = none ∧
    responseStatus (Handle none New
      (Parse acceptSignature sampleDecodeRelease sampleDecodePullRequest sampleDecodeOther)
      sampleReleaseRequest) = none :=
  ⟨rfl, rfl, rfl⟩

/-- C5 amended. With the environment file loaded, for every request and every
outcome of webhook-client setup and of parsing in which `hook.Parse` returns
(a payload or an error, no panic), `Handle` returns and the response status is
500 exactly when parsing failed with an error other than `ErrEventNotFound`,
and 200 otherwise.  (When client setup fails `Handle` returns without
`WriteHeader` and net/http sends 200.) -/
theorem Handle_status (env : Environ)
    (hookNew : String → Except String Webhook)
    (hookParse : Webhook → Request → List Event → Parsed)
    (request : Request)
    (hreturns : ∀ hook msg, hookNew (Getenv env "WEBHOOK_SECRET") = .ok hook →
      hookParse hook request [ReleaseEvent] ≠ .panic msg) :
    ∃ h, Handle (some env) hookNew hookParse request = .ok h ∧
      responseStatus (Handle (some env) hookNew hookParse request) = some h.status ∧
      (h.status = 500 ↔
        ∃ hook err, hookNew (Getenv env "WEBHOOK_SECRET") = .ok hook ∧
          hookParse hook request [ReleaseEvent] = .error err ∧
          err ≠ .ErrEventNotFound) ∧
      (h.status ≠ 500 → h.status = 200) := by
  cases hnew : hookNew (Getenv env "WEBHOOK_SECRET") with
  | error e =>
    simp only [Handle, envVar, hnew]
    refine ⟨_, rfl, rfl, ?_, ?_⟩ <;> simp [Handled.status, StatusOK]
  | ok hook =>
    cases hparse : hookParse hook request [ReleaseEvent] with
    | panic msg => exact absurd hparse (hreturns hook msg hnew)
    | error err =>
      by_cases he : err = HookError.ErrEventNotFound
      · simp only [Handle, envVar, hnew, hparse, he, if_true]
        refine ⟨_, rfl, rfl, ?_, ?_⟩ <;> simp [Handled.status, StatusOK, hparse, he]
      · simp only [Handle, envVar, hnew, hparse, he, if_false]
        refine ⟨_, rfl, rfl, ?_, ?_⟩ <;>
          simp [Handled.status, StatusInternalServerError, hparse, he]
    | ok payload =>
      cases payload <;> simp only [Handle, envVar, hnew, hparse] <;>
        refine ⟨_, rfl, rfl, ?_, ?_⟩ <;> simp [Handled.status, StatusOK, hparse]

/-- Witness for the amended C5: on a release delivery whose signature check
fails the parser returns an error, and the status is 500. -/
theorem Handle_status_witness :
    (∀ hook msg, New (Getenv sampleEnv "WEBHOOK_SECRET") = .ok hook →
      Parse rejectSignature sampleDecodeRelease sampleDecodePullRequest sampleDecodeOther
        hook sampleReleaseRequest [ReleaseEvent] ≠ .panic msg) ∧
    ∃ h, Handle (some sampleEnv) New
        (Parse rejectSignature sampleDecodeRelease sampleDecodePullRequest sampleDecodeOther)
        sampleReleaseRequest = .ok h ∧
      responseStatus (Handle (some sampleEnv) New
        (Parse rejectSignature sampleDecodeRelease sampleDecodePullRequest sampleDecodeOther)
        sampleReleaseRequest) = some h.status ∧
      (h.status = 500 ↔
        ∃ hook err, New (Getenv sampleEnv "WEBHOOK_SECRET") = .ok hook ∧
          Parse rejectSignature sampleDecodeRelease sampleDecodePullRequest sampleDecodeOther
            hook sampleReleaseRequest [ReleaseEvent] = .error err ∧
          err ≠ .ErrEventNotFound) ∧
      (h.status ≠ 500 → h.status = 200) :=
  have hreturns : ∀ hook msg, New (Getenv sampleEnv "WEBHOOK_SECRET") = .ok hook →
      Parse rejectSignature sampleDecodeRelease sampleDecodePullRequest sampleDecodeOther
        hook sampleReleaseRequest [ReleaseEvent] ≠ .panic msg := by
    intro hook msg hnew hp
    have hhook : hook = { secret := "s3cret" } := by
      have h1 : (Except.ok { secret := "s3cret" } : Except String Webhook) = .ok hook := hnew
      injection h1 with h2
      exact h2.symm
    subst hhook
    have hp' : Parsed.error HookError.ErrHMACVerificationFailed = Parsed.panic msg := hp
    cases hp'
  ⟨hreturns,
   Handle_status sampleEnv New
     (Parse rejectSignature sampleDecodeRelease sampleDecodePullRequest sampleDecodeOther)
     sampleReleaseRequest hreturns⟩

/-! ## Release processor -/

/-- `containsChars` decides the infix relation on character sequences. -/
theorem containsChars_iff_infix (sub s : List Char) :
    containsChars sub s = true ↔ sub <:+: s := by
  induction s with
  | nil => simp [containsChars, List.infix_nil]
  | cons c cs ih =>
    simp only [containsChars, Bool.or_eq_true, List.isPrefixOf_iff_prefix, ih]
    rw [List.infix_cons_iff]

/-- C6. With the environment file loaded, for every release payload and every
behaviour of the API, `processReleaseEvent` issues exactly one call, a create
call on the configured org/repo, whose descriptor is title "Hello pull
request!", head "develop", base "master", body "This is an automatically
created PR.", maintainer-modify true; the calls are the same for any two
release payloads. -/
theorem processReleaseEvent_calls (env : Environ)
    (create : String → String → NewPullRequest → Except String PullRequest)
    (p : ReleasePayload) :
    (processReleaseEvent (some env) create p).map Processed.calls =
      .ok [ApiCall.Create (Getenv env "ORG_ID") (Getenv env "REPO_NAME")
            { Title := some "Hello pull request!",
              Head := some "develop",
              Base := some "master",
              Body := some "This is an automatically created PR.",
              Issue := none,
              MaintainerCanModify := some true,
              Draft := none }] ∧
    ∀ q : ReleasePayload,
      (processReleaseEvent (some env) create q).map Processed.calls =
        (processReleaseEvent (some env) create p).map Processed.calls := by
  refine ⟨?_, fun q => rfl⟩
  simp only [processReleaseEvent, envVar]
  cases create (Getenv env "ORG_ID") (Getenv env "REPO_NAME") releasePullRequest with
  | error err =>
    by_cases hc : Contains err alreadyExists = true <;>
      simp [hc, Except.map, releasePullRequest]
  | ok pr => simp [Except.map, releasePullRequest]

/-- C7. When the create call returns an error whose text contains
"A pull request already exists", `processReleaseEvent` makes no log call at
all. -/
theorem processReleaseEvent_already_exists_silent (env : Environ)
    (create : String → String → NewPullRequest → Except String PullRequest)
    (p : ReleasePayload) (err : String)
    (hcall : create (Getenv env "ORG_ID") (Getenv env "REPO_NAME") releasePullRequest =
      .error err)
    (hsub : Contains err "A pull request already exists" = true) :
    (processReleaseEvent (some env) create p).map Processed.logs = .ok [] := by
  have hsub' : Contains err alreadyExists = true := hsub
  simp [processReleaseEvent, envVar, hcall, hsub', Except.map]

/-- Witness for C7: a 422 "already exists" failure of the create call. -/
theorem processReleaseEvent_already_exists_silent_witness :
    createAlreadyExists (Getenv sampleEnv "ORG_ID") (Getenv sampleEnv "REPO_NAME")
      releasePullRequest =
      .error "422 Validation Failed: A pull request already exists for acme:develop." ∧
    Contains "422 Validation Failed: A pull request already exists for acme:develop."
      "A pull request already exists" = true ∧
    (processReleaseEvent (some sampleEnv) createAlreadyExists sampleRelease).map
      Processed.logs = .ok [] :=
  ⟨rfl, by decide,
   processReleaseEvent_already_exists_silent sampleEnv createAlreadyExists sampleRelease
     "422 Validation Failed: A pull request already exists for acme:develop." rfl
     (by decide)⟩

/-- C8. When the create call returns an error whose text does not contain
"A pull request already exists", `processReleaseEvent` makes exactly one log
call, the error line (so no "created pull request" line); and over all
behaviours of the create call, an error line is logged if and only if the
call failed with an error lacking that substring. -/
theorem processReleaseEvent_error_logged (env : Environ)
    (create : String → String → NewPullRequest → Except String PullRequest)
    (p : ReleasePayload) :
    (∀ err,
      create (Getenv env "ORG_ID") (Getenv env "REPO_NAME") releasePullRequest = .error err →
      Contains err "A pull request already exists" = false →
      (processReleaseEvent (some env) create p).map Processed.logs =
        .ok [.Printf "error creating pull request: %v\n" [.err err]]) ∧
    ((∃ r args, processReleaseEvent (some env) create p = .ok r ∧
        LogCall.Printf "error creating pull request: %v\n" args ∈ r.logs) ↔
      ∃ err,
        create (Getenv env "ORG_ID") (Getenv env "REPO_NAME") releasePullRequest =
          .error err ∧
        Contains err "A pull request already exists" = false) := by
  constructor
  · intro err hcall hsub
    have hsub' : Contains err alreadyExists = false := hsub
    simp [processReleaseEvent, envVar, hcall, hsub', Except.map]
  · simp only [processReleaseEvent, envVar]
    cases hcall : create (Getenv env "ORG_ID") (Getenv env "REPO_NAME") releasePullRequest with
    | error err =>
      by_cases hc : Contains err alreadyExists = true
      · have hc' : Contains err "A pull request already exists" = true := hc
        simp [hc, hc']
      · have hc' : Contains err "A pull request already exists" = false := by
          simpa [alreadyExists] using hc
        simp [hc, hc']
    | ok pr => simp

/-- Witness for C8: a 401 failure of the create call is logged once. -/
theorem processReleaseEvent_error_logged_witness :
    createUnauthorized (Getenv sampleEnv "ORG_ID") (Getenv sampleEnv "REPO_NAME")
      releasePullRequest = .error "401 Bad credentials" ∧
    Contains "401 Bad credentials" "A pull request already exists" = false ∧
    (processReleaseEvent (some sampleEnv) createUnauthorized sampleRelease).map
      Processed.logs =
      .ok [.Printf "error creating pull request: %v\n" [.err "401 Bad credentials"]] :=
  ⟨rfl, by decide,
   (processReleaseEvent_error_logged sampleEnv createUnauthorized sampleRelease).1
     "401 Bad credentials" rfl (by decide)⟩

/-! ## Pull-request processor -/

/-- C10 as stated fails: for a payload whose pull request goes from `feature`
to `main`, the one edit call carries exactly that pull request, so its branch
pair is feature/main, not develop/master. -/
theorem processPrEvent_branch_pair_counterexample :
    (processPrEvent (some sampleEnv) editEcho samplePullRequest).map Processed.calls =
      .ok [ApiCall.Edit "acme" "widgets"
            { Number := 7, URL := "https://api.github.test/pulls/7", Title := "Add feature",
              Body := "", Head := { Ref := "feature" }, Base := { Ref := "main" } }] ∧
    samplePullRequest.PullRequest.Head.Ref ≠ "develop" ∧
    samplePullRequest.PullRequest.Base.Ref ≠ "master" :=
  ⟨rfl, by decide, by decide⟩

/-- C10 amended. With the environment file loaded, for every pull-request
payload `processPrEvent` issues exactly one call, an edit call on the
configured org/repo carrying the payload's pull request unchanged (its own
head and base branches included); and an error line is logged if and only if
the edit call failed with an error lacking "A pull request already exists". -/
theorem processPrEvent_forwards_payload (env : Environ)
    (edit : String → String → PullRequest → Except String PullRequest)
    (p : PullRequestsPayload) :
    (processPrEvent (some env) edit p).map Processed.calls =
      .ok [ApiCall.Edit (Getenv env "ORG_ID") (Getenv env "REPO_NAME") p.PullRequest] ∧
    ((∃ r args, processPrEvent (some env) edit p = .ok r ∧
        LogCall.Printf "error creating pull request: %v\n" args ∈ r.logs) ↔
      ∃ err,
        edit (Getenv env "ORG_ID") (Getenv env "REPO_NAME") p.PullRequest = .error err ∧
        Contains err "A pull request already exists" = false) := by
  simp only [processPrEvent, envVar]
  cases hcall : edit (Getenv env "ORG_ID") (Getenv env "REPO_NAME") p.PullRequest with
  | error err =>
    by_cases hc : Contains err alreadyExists = true
    · have hc' : Contains err "A pull request already exists" = true := hc
      simp [hc, hc', Except.map]
    · have hc' : Contains err "A pull request already exists" = false := by
        simpa [alreadyExists] using hc
      simp [hc, hc', Except.map]
  | ok pr => simp [Except.map]

/-! ## Startup: the APP_ID parse -/

/-- Appending digits never decreases the accumulated value. -/
theorem le_decimalValue (ds : List Nat) (n : Nat) : n ≤ decimalValue ds n := by
  induction ds generalizing n with
  | nil => simp [decimalValue]
  | cons d ds ih =>
    have h := ih (n * 10 + d)
    simp only [decimalValue, List.foldl_cons] at h ⊢
    omega

/-- On decimal digits the `ParseUint` loop computes the decimal value from the
accumulator on, or reports a range error when that value exceeds `uint64`. -/
theorem parseUintLoop_digits (ds : List Nat) (n : Nat)
    (hds : ∀ d ∈ ds, d < 10) (hn : n ≤ maxUint64) :
    parseUintLoop (ds.map (· + 48)) n =
      if decimalValue ds n ≤ maxUint64 then (decimalValue ds n, none)
      else (maxUint64, some .ErrRange) := by
  induction ds generalizing n with
  | nil => simp [parseUintLoop, decimalValue, hn]
  | cons d ds ih =>
    have hd : d < 10 := hds d (by simp)
    have hds' : ∀ e ∈ ds, e < 10 := fun e he => hds e (by simp [he])
    have hmono := le_decimalValue ds (n * 10 + d)
    have hstep : decimalValue (d :: ds) n = decimalValue ds (n * 10 + d) := by
      simp [decimalValue]
    have hmax : maxUint64 = 18446744073709551615 := by decide
    simp only [List.map_cons, parseUintLoop]
    have hc : 48 ≤ d + 48 ∧ d + 48 ≤ 57 := by omega
    simp only [hc, and_self, if_true, Nat.add_sub_cancel]
    rw [hstep]
    have hnot : ¬ d ≥ 10 := by omega
    simp only [hnot, if_false]
    by_cases hcut : n ≥ maxUint64 / 10 + 1
    · simp only [hcut, if_true]
      have : ¬ decimalValue ds (n * 10 + d) ≤ maxUint64 := by
        rw [hmax] at hcut ⊢
        omega
      simp [this]
    · simp only [hcut, if_false]
      rw [hmax] at hcut hn
      have h10 : n * 10 % 2 ^ 64 = n * 10 := Nat.mod_eq_of_lt (by omega)
      rw [h10]
      by_cases hw : n * 10 + d < 2 ^ 64
      · have h1 : (n * 10 + d) % 2 ^ 64 = n * 10 + d := Nat.mod_eq_of_lt hw
        rw [h1]
        have hle : n * 10 + d ≤ maxUint64 := by rw [hmax]; omega
        have hno : ¬ (n * 10 + d < n * 10 ∨ n * 10 + d > maxUint64) := by omega
        simp only [hno, if_false]
        exact ih (n * 10 + d) hds' hle
      · have h1 : (n * 10 + d) % 2 ^ 64 < n * 10 := by omega
        have : ¬ decimalValue ds (n * 10 + d) ≤ maxUint64 := by
          rw [hmax]; omega
        have hyes : (n * 10 + d) % 2 ^ 64 < n * 10 ∨ (n * 10 + d) % 2 ^ 64 > maxUint64 :=
          Or.inl h1
        simp only [hyes, if_true, this, if_false]


/-- `ParseUint` on a nonempty run of decimal digits. -/
theorem ParseUint_digits (ds : List Nat) (hne : ds ≠ []) (hds : ∀ d ∈ ds, d < 10) :
    ParseUint (ds.map (· + 48)) =
      if decimalValue ds 0 ≤ maxUint64 then (decimalValue ds 0, none)
      else (maxUint64, some .ErrRange) := by
  cases ds with
  | nil => exact absurd rfl hne
  | cons d ds =>
    simp only [ParseUint, List.map_cons]
    exact parseUintLoop_digits (d :: ds) 0 hds (by decide)

/-- `ParseInt` on an unsigned decimal numeral: its value when below 2^63,
otherwise 2^63-1 with a range error. -/
theorem ParseInt_decimal (s : String) (ds : List Nat) (hne : ds ≠ [])
    (hds : ∀ d ∈ ds, d < 10) (hs : bytes s = ds.map (· + 48)) :
    ParseInt s =
      if decimalValue ds 0 < 2 ^ 63 then (Int.ofNat (decimalValue ds 0), none)
      else (2 ^ 63 - 1, some NumError.ErrRange) := by
  have hU := ParseUint_digits ds hne hds
  cases ds with
  | nil => exact absurd rfl hne
  | cons d ds =>
    have hd : d < 10 := hds d (by simp)
    have hmax : maxUint64 = 18446744073709551615 := by decide
    simp only [List.map_cons] at hs hU
    unfold ParseInt
    rw [hs]
    have h43 : ¬ d + 48 = 43 := by omega
    have h45 : ¬ d + 48 = 45 := by omega
    simp only [h43, h45, if_false]
    rw [hU]
    generalize decimalValue (d :: ds) 0 = v
    rw [hmax]
    have h63 : (2 : Nat) ^ 63 = 9223372036854775808 := by norm_num
    rw [h63]
    by_cases hle : v ≤ 18446744073709551615
    · by_cases hlt : v < 9223372036854775808
      · have hge : ¬ v ≥ 9223372036854775808 := by omega
        have hval : ((v : Int) + 9223372036854775808) % 18446744073709551616
            - 9223372036854775808 = (v : Int) := by omega
        simp [hle, hlt, hge, int64, hval]
      · have hge : v ≥ 9223372036854775808 := by omega
        simp [hle, hlt, hge, int64]
    · have hlt : ¬ v < 9223372036854775808 := by omega
      simp [hle, hlt, int64]


/-- `ParseInt` on a decimal numeral with a minus sign: the negated value when
the magnitude is at most 2^63, otherwise -2^63 with a range error. -/
theorem ParseInt_negative_decimal (s : String) (ds : List Nat) (hne : ds ≠ [])
    (hds : ∀ d ∈ ds, d < 10) (hs : bytes s = 45 :: ds.map (· + 48)) :
    ParseInt s =
      if decimalValue ds 0 ≤ 2 ^ 63 then (-Int.ofNat (decimalValue ds 0), none)
      else (-2 ^ 63, some NumError.ErrRange) := by
  have hU := ParseUint_digits ds hne hds
  have hmax : maxUint64 = 18446744073709551615 := by decide
  unfold ParseInt
  rw [hs]
  simp only [show ¬ (45 : Nat) = 43 by decide, if_false, if_true]
  rw [hU]
  generalize decimalValue ds 0 = v
  rw [hmax]
  have h63 : (2 : Nat) ^ 63 = 9223372036854775808 := by norm_num
  rw [h63]
  by_cases hle : v ≤ 18446744073709551615
  · by_cases hlt : v ≤ 9223372036854775808
    · have hgt : ¬ v > 9223372036854775808 := by omega
      have hval : (-(((v : Int) + 9223372036854775808) % 18446744073709551616
          - 9223372036854775808) + 9223372036854775808) % 18446744073709551616
          - 9223372036854775808 = -(v : Int) := by omega
      simp only [hle, hgt, if_true, if_false, int64, decide_False, decide_True,
        Bool.not_true, Bool.and_false, Bool.and_true, Bool.false_and, Bool.true_and,
        Bool.false_eq_true, ge_iff_le, gt_iff_lt, Int.ofNat_eq_coe, hlt]
      norm_num
      omega
    · have hgt : v > 9223372036854775808 := by omega
      simp [hle, hlt, hgt, int64]
  · have hlt : ¬ v ≤ 9223372036854775808 := by omega
    simp [hle, hlt, int64]

/-- `ParseInt` evaluated on sample strings: values, syntax errors, range
errors (an invalid character after the overflow point is not reached). -/
theorem ParseInt_samples :
    ParseInt "42" = (42, none) ∧
    ParseInt "+7" = (7, none) ∧
    ParseInt "-9223372036854775808" = (-9223372036854775808, none) ∧
    ParseInt "" = (0, some .ErrSyntax) ∧
    ParseInt "-" = (0, some .ErrSyntax) ∧
    ParseInt "forty-two" = (0, some .ErrSyntax) ∧
    ParseInt "12a" = (0, some .ErrSyntax) ∧
    ParseInt "1_000" = (0, some .ErrSyntax) ∧
    ParseInt "9223372036854775808" = (9223372036854775807, some .ErrRange) ∧
    ParseInt "-9223372036854775809" = (-9223372036854775808, some .ErrRange) ∧
    ParseInt "99999999999999999999x" = (9223372036854775807, some .ErrRange) := by
  decide

/-- When `ParseInt` reports an error, the value it returns is 0 for a syntax
error; for a range error it is the `int64` bound on the side of the sign,
-2^63 when the first byte is `-` (45) and 2^63-1 otherwise. -/
theorem ParseInt_error_value (s : String) :
    (ParseInt s).2 = none ∨
    ((ParseInt s).2 = some .ErrSyntax ∧ (ParseInt s).1 = 0) ∨
    ((ParseInt s).2 = some .ErrRange ∧
      (((bytes s).head? = some 45 ∧ (ParseInt s).1 = -2 ^ 63) ∨
        ((bytes s).head? ≠ some 45 ∧ (ParseInt s).1 = 2 ^ 63 - 1))) := by
  unfold ParseInt
  cases hb : bytes s with
  | nil => right; left; exact ⟨rfl, rfl⟩
  | cons c0 tl =>
    by_cases h45 : c0 = 45
    · subst h45
      simp only [show ¬ (45 : Nat) = 43 by decide, if_false, if_true, List.head?_cons]
      split
      · right; left; exact ⟨rfl, rfl⟩
      · split_ifs
        all_goals first
          | (left; rfl)
          | (exfalso; simp_all; done)
          | (right; right; exact ⟨rfl, Or.inl ⟨by simp, by decide⟩⟩)
    · by_cases h43 : c0 = 43
      · simp only [h43, if_true, List.head?_cons]
        split
        · right; left; exact ⟨rfl, rfl⟩
        · split_ifs
          all_goals first
            | (left; rfl)
            | (exfalso; simp_all; done)
            | (right; right; exact ⟨rfl, Or.inr ⟨by simp, by decide⟩⟩)
      · simp only [h43, h45, if_false, List.head?_cons]
        split
        · right; left; exact ⟨rfl, rfl⟩
        · split_ifs
          all_goals first
            | (left; rfl)
            | (exfalso; simp_all; done)
            | (right; right; exact ⟨rfl, Or.inr ⟨by simpa using h45, by decide⟩⟩)

/-- C9 as stated fails: `APP_ID=9223372036854775808` does not parse (range
error), startup goes on, and the transport is created with app id
9223372036854775807, not 0. -/
theorem main_APP_ID_out_of_range_counterexample :
    (ParseInt "9223372036854775808").2 = some NumError.ErrRange ∧
    (main (some [("CERT_PATH", "key.pem"), ("APP_ID", "9223372036854775808")])
        sampleNewAppsTransport sampleFindInstallation none).head? =
      some (.NewAppsTransportKeyFromFile 9223372036854775807 "key.pem") ∧
    (9223372036854775807 : Int) ≠ 0 :=
  ⟨by decide, by decide, by decide⟩

/-- C9 amended. With the environment file loaded, for every APP_ID string on
which `ParseInt` reports an error, the first action of `main` is the creation
of the app transport (no abort at the parse step), with the value `ParseInt`
returned as app id: 0 when the error is a syntax error; when it is a range
error, -2^63 if the first byte of the string is `-` (45) and 2^63-1
otherwise. -/
theorem main_ignores_APP_ID_error (env : Environ)
    (newAppsTransport : Int → String → Except String AppsTransport)
    (findInstallation : AppsTransport → String → Except String Installation)
    (serveErr : Option ServeError)
    (hfail : (ParseInt (Getenv env "APP_ID")).2 ≠ none) :
    (main (some env) newAppsTransport findInstallation serveErr).head? =
      some (.NewAppsTransportKeyFromFile (ParseInt (Getenv env "APP_ID")).1
        (Getenv env "CERT_PATH")) ∧
    (((ParseInt (Getenv env "APP_ID")).2 = some .ErrSyntax ∧
        (ParseInt (Getenv env "APP_ID")).1 = 0) ∨
      ((ParseInt (Getenv env "APP_ID")).2 = some .ErrRange ∧
        (((bytes (Getenv env "APP_ID")).head? = some 45 ∧
            (ParseInt (Getenv env "APP_ID")).1 = -9223372036854775808) ∨
          ((bytes (Getenv env "APP_ID")).head? ≠ some 45 ∧
            (ParseInt (Getenv env "APP_ID")).1 = 9223372036854775807)))) := by
  refine ⟨?_, ?_⟩
  · simp [main, envVar, hfail]
  · rcases ParseInt_error_value (Getenv env "APP_ID") with h | h | h
    · exact absurd h hfail
    · exact Or.inl h
    · refine Or.inr ⟨h.1, ?_⟩
      rcases h.2 with ⟨h1, h2⟩ | ⟨h1, h2⟩
      · exact Or.inl ⟨h1, by rw [h2]; norm_num⟩
      · exact Or.inr ⟨h1, by rw [h2]; norm_num⟩

/-- Witness for the amended C9: a non-numeric APP_ID gives app id 0, a
numeral below the `int64` range gives -2^63, one above it gives 2^63-1. -/
theorem main_ignores_APP_ID_error_witness :
    ((ParseInt (Getenv [("CERT_PATH", "key.pem"), ("APP_ID", "forty-two")] "APP_ID")).2 ≠ none ∧
      (main (some [("CERT_PATH", "key.pem"), ("APP_ID", "forty-two")])
          sampleNewAppsTransport sampleFindInstallation none).head? =
        some (.NewAppsTransportKeyFromFile 0 "key.pem")) ∧
    ((ParseInt (Getenv [("CERT_PATH", "key.pem"), ("APP_ID", "-9223372036854775809")]
        "APP_ID")).2 ≠ none ∧
      (main (some [("CERT_PATH", "key.pem"), ("APP_ID", "-9223372036854775809")])
          sampleNewAppsTransport sampleFindInstallation none).head? =
        some (.NewAppsTransportKeyFromFile (-9223372036854775808) "key.pem")) ∧
    ((ParseInt (Getenv [("CERT_PATH", "key.pem"), ("APP_ID", "9223372036854775808")]
        "APP_ID")).2 ≠ none ∧
      (main (some [("CERT_PATH", "key.pem"), ("APP_ID", "9223372036854775808")])
          sampleNewAppsTransport sampleFindInstallation none).head? =
        some (.NewAppsTransportKeyFromFile 9223372036854775807 "key.pem")) :=
  ⟨⟨by decide,
    (main_ignores_APP_ID_error [("CERT_PATH", "key.pem"), ("APP_ID", "forty-two")]
      sampleNewAppsTransport sampleFindInstallation none (by decide)).1⟩,
   ⟨by decide,
    (main_ignores_APP_ID_error [("CERT_PATH", "key.pem"), ("APP_ID", "-9223372036854775809")]
      sampleNewAppsTransport sampleFindInstallation none (by decide)).1⟩,
   ⟨by decide,
    (main_ignores_APP_ID_error [("CERT_PATH", "key.pem"), ("APP_ID", "9223372036854775808")]
      sampleNewAppsTransport sampleFindInstallation none (by decide)).1⟩⟩

end PrSizeBot
